import Mathlib

/-!
Verification of the PDF viewer component
(`src/frontend/src/components/pdf-viewer/pdf-viewer.ts`, class `PdfViewer`).

The component is embedded shallowly:

* scales and transform-matrix entries are modelled as rationals (every
  constant the code manipulates — 1.5, 0.25, 0.5, 3.0 and the matrix
  entries of the tests — is an exactly representable value, and the
  operations involved, `Math.min`/`Math.max`/addition/subtraction and
  matrix products, are exact at these magnitudes);
* page numbers are integers;
* the asynchronous rendering logic is modelled twice, at two grains:
  `renderPage` gives the net effect of one whole `renderPage(pageNum)`
  call (its outcome — success or a thrown error — taken as a parameter),
  and `step`/`stepTrace` is an interleaving model in which a running
  `renderPage` call is split at its suspension points, so that scale
  changes arriving while a render is in flight can be expressed.
-/

namespace PdfViewer

/-! ## Affine transforms (pdf.js `Util.transform` and the text layer math) -/

/-- An affine transform `[a, b, c, d, e, f]` as pdf.js represents it
(column-major 2x3: `x ↦ a*x + c*y + e`, `y ↦ b*x + d*y + f`). -/
structure Mat where
  a : ℚ
  b : ℚ
  c : ℚ
  d : ℚ
  e : ℚ
  f : ℚ
deriving DecidableEq, Repr

/-- pdf.js `Util.transform(m1, m2)`: the composite `m1 ∘ m2`,
entrywise `[m1[0]*m2[0] + m1[2]*m2[1], m1[1]*m2[0] + m1[3]*m2[1],
m1[0]*m2[2] + m1[2]*m2[3], m1[1]*m2[2] + m1[3]*m2[3],
m1[0]*m2[4] + m1[2]*m2[5] + m1[4], m1[1]*m2[4] + m1[3]*m2[5] + m1[5]]`. -/
def utilTransform (m1 m2 : Mat) : Mat where
  a := m1.a * m2.a + m1.c * m2.b
  b := m1.b * m2.a + m1.d * m2.b
  c := m1.a * m2.c + m1.c * m2.d
  d := m1.b * m2.c + m1.d * m2.d
  e := m1.a * m2.e + m1.c * m2.f + m1.e
  f := m1.b * m2.e + m1.d * m2.f + m1.f

/-- The constant matrix `[1, 0, 0, -1, 0, 0]` the text-layer loop
right-composes onto `Util.transform(viewport.transform, item.transform)`
(pdf-viewer.ts line 255). -/
def flipY : Mat := ⟨1, 0, 0, -1, 0, 0⟩

/-- An identity transform, used as a native text-run transform. -/
def idTransform : Mat := ⟨1, 0, 0, 1, 0, 0⟩

/-- The matrix `tx` computed for one text item (pdf-viewer.ts lines
253-256): `Util.transform(Util.transform(viewport.transform,
item.transform), [1, 0, 0, -1, 0, 0])`. -/
def spanTx (viewportT itemT : Mat) : Mat :=
  utilTransform (utilTransform viewportT itemT) flipY

/-- The overlay span's horizontal origin: `span.style.left = tx[4]`
(pdf-viewer.ts line 260). -/
def spanLeft (viewportT itemT : Mat) : ℚ := (spanTx viewportT itemT).e

/-- The overlay span's vertical origin: `span.style.top = tx[5]`
(pdf-viewer.ts line 261). -/
def spanTop (viewportT itemT : Mat) : ℚ := (spanTx viewportT itemT).f

/-- The square of the overlay span's font size:
`span.style.fontSize = Math.sqrt(tx[0]*tx[0] + tx[1]*tx[1])`
(pdf-viewer.ts line 262); kept squared so it stays rational, with
`Real.sqrt` applied in the statements that speak of the font size itself. -/
def spanFontSizeSq (viewportT itemT : Mat) : ℚ :=
  (spanTx viewportT itemT).a ^ 2 + (spanTx viewportT itemT).b ^ 2

/-- The pdf.js page viewport transform at rotation 0 for a page of native
height `height` and scale `scale` (with the view box at the origin):
`[scale, 0, 0, -scale, 0, height * scale]`, mapping the page's y-up native
space to y-down presentation pixels. This is the matrix
`page.getViewport({ scale: this.scale })` (pdf-viewer.ts line 225) hands
to the text-layer loop. -/
def viewportTransform (scale height : ℚ) : Mat :=
  ⟨scale, 0, 0, -scale, 0, height * scale⟩

/-! ## Zoom (pdf-viewer.ts lines 310-320) and the scale property -/

/-- `zoomIn()`: `this.scale = Math.min(this.scale + 0.25, 3.0)`. -/
def zoomIn (scale : ℚ) : ℚ := min (scale + 1/4) 3

/-- `zoomOut()`: `this.scale = Math.max(this.scale - 0.25, 0.5)`. -/
def zoomOut (scale : ℚ) : ℚ := max (scale - 1/4) (1/2)

/-- `resetZoom()`: `this.scale = 1.5`. -/
def resetZoom : ℚ := 3/2

/-- Assigning the public `scale` property directly (`@property scale`,
pdf-viewer.ts line 14). The property has no setter logic: the assigned
value is stored as is, with no clamping. -/
def setScaleDirect (newScale : ℚ) : ℚ := newScale

/-! ## Navigation (pdf-viewer.ts lines 322-341) -/

/-- The navigation-relevant state of the viewer: the loaded page count and
the current page. The rendered markup creates one `.page` container for
each page 1..numPages, so for an in-range page the container query in
`goToPage` succeeds and `currentPage` is updated. -/
structure NavState where
  numPages : ℤ
  currentPage : ℤ
deriving DecidableEq, Repr

/-- `goToPage(page)`: returns unchanged when `page < 1 || page > this.numPages`;
otherwise scrolls the page container into view and sets `currentPage`. -/
def goToPage (st : NavState) (page : ℤ) : NavState :=
  if page < 1 ∨ page > st.numPages then st
  else { st with currentPage := page }

/-- `nextPage()`: `this.goToPage(this.currentPage + 1)`. -/
def nextPage (st : NavState) : NavState := goToPage st (st.currentPage + 1)

/-- `prevPage()`: `this.goToPage(this.currentPage - 1)`. -/
def prevPage (st : NavState) : NavState := goToPage st (st.currentPage - 1)

/-! ## Text selection (pdf-viewer.ts lines 290-308) -/

/-- The whitespace test of ECMAScript `String.prototype.trim` (WhiteSpace
and LineTerminator code points). -/
def jsIsWhiteSpace (ch : Char) : Bool :=
  ch = ' ' || ch = '\t' || ch = '\n' || ch = '\r' ||
  ch = Char.ofNat 11 || ch = Char.ofNat 12 || ch = Char.ofNat 160 ||
  ch = Char.ofNat 0x2028 || ch = Char.ofNat 0x2029 || ch = Char.ofNat 0xFEFF

/-- JavaScript `String.prototype.trim`: the string with leading and
trailing whitespace removed. -/
def jsTrim (s : String) : String :=
  String.mk (((s.data.dropWhile jsIsWhiteSpace).reverse.dropWhile
    jsIsWhiteSpace).reverse)

/-- The detail of the `text-selected` CustomEvent
(`TextSelection` in src/frontend/src/types/pdf.ts). -/
structure TextSelection where
  text : String
  page : ℤ
deriving DecidableEq, Repr

/-- `handleTextSelection(pageNum)`, run on `mouseup` in a page's text
layer: reads `window.getSelection()` (`none` when the platform reports no
selection object), trims it, and dispatches a `text-selected` event
carrying `{ text, page }` exactly when the trimmed string is truthy,
i.e. non-empty. The returned option is the dispatched event's detail. -/
def handleTextSelection (selection : Option String) (pageNum : ℤ) :
    Option TextSelection :=
  match selection with
  | none => none
  | some raw =>
      let selectedText := jsTrim raw
      if selectedText = "" then none
      else some { text := selectedText, page := pageNum }

/-! ## Rendering: one `renderPage` call as a whole (pdf-viewer.ts lines 216-276) -/

/-- How one `renderPage` run resolves once it is past the entry guard:
either every awaited step succeeds, or some awaited step throws (a corrupt
stream, a failed rasterization); a thrown error reaches the `catch`, which
only logs it. The `finally` runs on both paths. -/
inductive RenderOutcome where
  | success
  | failure (reason : String)
deriving DecidableEq, Repr

/-- The viewer state the rendering code touches: whether a document is
loaded (`this.pdf`), the current scale, page count and current page, the
in-flight tracking set `this.renderingPages`, the render tasks currently
in flight (each pending `page.render(...)`, with the scale its viewport
was created at), and the page/scale pairs whose canvas and text layer
have been written. -/
structure ViewerState where
  pdfLoaded : Bool
  scale : ℚ
  numPages : ℤ
  currentPage : ℤ
  renderingPages : Finset ℤ
  tasks : List (ℤ × ℚ)
  completed : List (ℤ × ℚ)
deriving DecidableEq

/-- The net effect of one whole `renderPage(pageNum)` call, together with
the list of event types it dispatches. The entry guard
`if (!this.pdf || this.renderingPages.has(pageNum)) return;` leaves the
state untouched. Otherwise `pageNum` is added to `renderingPages`, the
page is rendered at the scale read from `this.scale` (recorded in
`completed` on success; nothing is recorded when a step throws, the
`catch` only calls `console.error`), and the `finally` deletes `pageNum`
from `renderingPages` on both paths — so the run's net effect on the set
is an erase. `renderPage` dispatches no event on any path
(`dispatchEvent` occurs only in `handleTextSelection`), so the event list
is empty. -/
def renderPage (st : ViewerState) (pageNum : ℤ) (outcome : RenderOutcome) :
    ViewerState × List String :=
  if st.pdfLoaded = false ∨ pageNum ∈ st.renderingPages then (st, [])
  else
    match outcome with
    | .success =>
        ({ st with renderingPages := st.renderingPages.erase pageNum,
                   completed := (pageNum, st.scale) :: st.completed }, [])
    | .failure _ =>
        ({ st with renderingPages := st.renderingPages.erase pageNum }, [])

/-! ## Rendering: interleaving of in-flight renders with scale changes
(pdf-viewer.ts lines 153-160 and 216-288) -/

/-- One scheduler event, at the grain of `renderPage`'s suspension points:
`startRender p` is a `renderPage(p)` call running up to the point where it
has created its viewport at the current `this.scale` and started its
render task; `finishRender p s ok` is the in-flight task `(p, s)`
settling (fulfilled when `ok`, rejected otherwise), after which the call
runs its tail and its `catch`/`finally`; `scaleChange s` is `updated()`
observing a scale change and running `rerenderVisiblePages()`, whose
`this.renderingPages.clear()` empties the tracking set — no in-flight
task is cancelled — and whose fresh `renderPage` calls appear as later
`startRender` events of the trace. -/
inductive Ev where
  | startRender (pageNum : ℤ)
  | finishRender (pageNum : ℤ) (scale : ℚ) (ok : Bool)
  | scaleChange (newScale : ℚ)
deriving DecidableEq, Repr

/-- The state transition of one scheduler event. -/
def step (st : ViewerState) : Ev → ViewerState
  | .startRender p =>
      if st.pdfLoaded = false ∨ p ∈ st.renderingPages then st
      else
        { st with renderingPages := insert p st.renderingPages,
                  tasks := (p, st.scale) :: st.tasks }
  | .finishRender p s ok =>
      if (p, s) ∈ st.tasks then
        { st with tasks := st.tasks.erase (p, s),
                  renderingPages := st.renderingPages.erase p,
                  completed := if ok then (p, s) :: st.completed else st.completed }
      else st
  | .scaleChange s => { st with scale := s, renderingPages := ∅ }

/-- Running a list of scheduler events from a state. -/
def stepTrace (st : ViewerState) (evs : List Ev) : ViewerState :=
  evs.foldl step st

/-- The viewer freshly loaded: a 3-page document at the default scale 1.5
(pdf-viewer.ts line 14), nothing in flight. -/
def initState : ViewerState :=
  { pdfLoaded := true, scale := 3/2, numPages := 3, currentPage := 1,
    renderingPages := ∅, tasks := [], completed := [] }

/-- Every in-flight render task is tracked by `renderingPages`. -/
def TasksTracked (st : ViewerState) : Prop :=
  ∀ t ∈ st.tasks, t.1 ∈ st.renderingPages

/-- At most one render task per page is in flight. -/
def AtMostOneTask (st : ViewerState) : Prop :=
  ∀ p : ℤ, st.tasks.countP (fun t => t.1 = p) ≤ 1

/-- No event of the trace is a scale change. -/
def NoScaleChange (evs : List Ev) : Prop :=
  ∀ e ∈ evs, ∀ s : ℚ, e ≠ Ev.scaleChange s

/-! ## Theorems about the pure parts -/

/-- C3: for every viewport transform and native text-run transform, the
span origin `(tx[4], tx[5])` equals the translation components of the
composite `Util.transform(viewport.transform, item.transform)` (the extra
right factor `[1,0,0,-1,0,0]` leaves them unchanged), the font height
`sqrt(tx[0]^2 + tx[1]^2)` equals `sqrt(m00^2 + m01^2)` of that composite,
and at scale 2 with an identity native transform the font height is
exactly 2. -/
theorem c3_transform_correctness (vt it : Mat) (height : ℚ) :
    spanLeft vt it = (utilTransform vt it).e ∧
    spanTop vt it = (utilTransform vt it).f ∧
    Real.sqrt ((spanFontSizeSq vt it : ℚ) : ℝ) =
      Real.sqrt ((((utilTransform vt it).a ^ 2 + (utilTransform vt it).b ^ 2 : ℚ) : ℝ)) ∧
    Real.sqrt ((spanFontSizeSq (viewportTransform 2 height) idTransform : ℚ) : ℝ) = 2 := by
  refine ⟨?_, ?_, ?_, ?_⟩
  · simp [spanLeft, spanTx, utilTransform, flipY]
  · simp [spanTx, spanTop, utilTransform, flipY]
  · have hq : spanFontSizeSq vt it =
        (utilTransform vt it).a ^ 2 + (utilTransform vt it).b ^ 2 := by
      simp [spanFontSizeSq, spanTx, utilTransform, flipY]
    rw [hq]
  · have hq : spanFontSizeSq (viewportTransform 2 height) idTransform = 4 := by
      simp [spanFontSizeSq, spanTx, utilTransform, flipY, viewportTransform, idTransform]
      norm_num
    rw [hq]
    rw [show ((4 : ℚ) : ℝ) = 2 ^ 2 by norm_num]
    exact Real.sqrt_sq (by norm_num)

/-- C4 (code bug): the code writes `span.style.top = tx[5]` with no
baseline correction. At viewport transform `[1,0,0,-1,0,100]` and item
transform `[12,0,0,12,50,80]` the composite translation is `(50, 20)` and
the font height is `12`, yet the span's top is `20`, not the
baseline-corrected `20 - 12 = 8`: the vertical origin is NOT shifted
upward by the font height. -/
theorem c4_top_without_baseline_shift :
    spanTop ⟨1, 0, 0, -1, 0, 100⟩ ⟨12, 0, 0, 12, 50, 80⟩ = 20 ∧
    Real.sqrt ((spanFontSizeSq ⟨1, 0, 0, -1, 0, 100⟩ ⟨12, 0, 0, 12, 50, 80⟩ : ℚ) : ℝ) = 12 ∧
    ¬ spanTop ⟨1, 0, 0, -1, 0, 100⟩ ⟨12, 0, 0, 12, 50, 80⟩ = 20 - 12 := by
  refine ⟨?_, ?_, ?_⟩
  · norm_num [spanTop, spanTx, utilTransform, flipY]
  · have hq : spanFontSizeSq ⟨1, 0, 0, -1, 0, 100⟩ ⟨12, 0, 0, 12, 50, 80⟩ = 144 := by
      norm_num [spanFontSizeSq, spanTx, utilTransform, flipY]
    rw [hq]
    rw [show ((144 : ℚ) : ℝ) = 12 ^ 2 by norm_num]
    exact Real.sqrt_sq (by norm_num)
  · norm_num [spanTop, spanTx, utilTransform, flipY]

/-- C5 counterexample: the claimed invariant fails for out-of-range
starting scales and for direct assignment to the scale property.
`zoomOut` from scale 10 yields 39/4 > 3, and assigning 5 to the `scale`
property stores 5 > 3 (there is no `setScale` method and no clamping on
assignment). -/
theorem c5_scale_counterexample :
    zoomOut 10 = 39/4 ∧ ¬ ((39 : ℚ)/4 ≤ 3) ∧
    setScaleDirect 5 = 5 ∧ ¬ ((5 : ℚ) ≤ 3) := by
  refine ⟨?_, by norm_num, rfl, by norm_num⟩
  norm_num [zoomOut]

/-- C5 amended: when the starting scale already lies in [0.5, 3.0], each
of `zoomIn`, `zoomOut` and `resetZoom` yields a scale in [0.5, 3.0];
direct assignment to the `scale` property is not clamped. -/
theorem c5_amended_scale_clamp (s : ℚ) (hlo : 1/2 ≤ s) (hhi : s ≤ 3) :
    (1/2 ≤ zoomIn s ∧ zoomIn s ≤ 3) ∧
    (1/2 ≤ zoomOut s ∧ zoomOut s ≤ 3) ∧
    (1/2 ≤ resetZoom ∧ resetZoom ≤ 3) := by
  refine ⟨⟨?_, ?_⟩, ⟨?_, ?_⟩, by norm_num [resetZoom], by norm_num [resetZoom]⟩
  · refine le_min (by linarith) (by norm_num)
  · exact min_le_right _ _
  · exact le_max_right _ _
  · refine max_le (by linarith) (by norm_num)

/-- C5 amended, witnessed at the default scale 1.5. -/
theorem c5_amended_scale_clamp_witness :
    (1/2 ≤ zoomIn (3/2) ∧ zoomIn (3/2) ≤ 3) ∧
    (1/2 ≤ zoomOut (3/2) ∧ zoomOut (3/2) ≤ 3) ∧
    (1/2 ≤ resetZoom ∧ resetZoom ≤ 3) :=
  c5_amended_scale_clamp (3/2) (by norm_num) (by norm_num)

/-- C7: on a pointer release in a page's text layer, with an active
selection `s` on page `p`, a `text-selected` event is dispatched exactly
when the trimmed selection is non-empty, and the event it dispatches
carries the trimmed string and that page's index; with no selection
object, nothing is dispatched. -/
theorem c7_selection_emit (s : String) (p : ℤ) :
    (∀ ev : TextSelection,
      handleTextSelection (some s) p = some ev ↔
        (¬ jsTrim s = "" ∧ ev = { text := jsTrim s, page := p })) ∧
    handleTextSelection none p = none := by
  refine ⟨fun ev => ?_, rfl⟩
  unfold handleTextSelection
  by_cases h : jsTrim s = ""
  · simp [h]
  · simp [h, eq_comm]

/-- C7, witnessed: the selection `"  hi  "` on page 4 emits
`{ text := "hi", page := 4 }`. -/
theorem c7_selection_emit_witness :
    handleTextSelection (some "  hi  ") 4 = some { text := "hi", page := 4 } :=
  ((c7_selection_emit "  hi  " 4).1 { text := "hi", page := 4 }).mpr
    ⟨by decide, by decide⟩

/-- C8: `goToPage` with an out-of-range page is a no-op, `nextPage` at the
last page is a no-op, and `prevPage` at page 1 is a no-op. -/
theorem c8_navigation_bounds (st : NavState) (p : ℤ) :
    ((p < 1 ∨ p > st.numPages) → goToPage st p = st) ∧
    (st.currentPage = st.numPages → nextPage st = st) ∧
    (st.currentPage = 1 → prevPage st = st) := by
  refine ⟨fun h => ?_, fun h => ?_, fun h => ?_⟩
  · simp [goToPage, h]
  · have : st.currentPage + 1 > st.numPages := by omega
    simp [nextPage, goToPage, this]
  · have : st.currentPage - 1 < 1 := by omega
    simp [prevPage, goToPage, this]

/-- C8, witnessed on a 3-page document: `goToPage 0`, `goToPage 4`,
`nextPage` at page 3 and `prevPage` at page 1 are no-ops. -/
theorem c8_navigation_bounds_witness :
    goToPage ⟨3, 2⟩ 0 = ⟨3, 2⟩ ∧ goToPage ⟨3, 2⟩ 4 = ⟨3, 2⟩ ∧
    nextPage ⟨3, 3⟩ = ⟨3, 3⟩ ∧ prevPage ⟨3, 1⟩ = ⟨3, 1⟩ :=
  ⟨(c8_navigation_bounds ⟨3, 2⟩ 0).1 (Or.inl (by norm_num)),
   (c8_navigation_bounds ⟨3, 2⟩ 4).1 (Or.inr (by norm_num)),
   (c8_navigation_bounds ⟨3, 3⟩ 0).2.1 rfl,
   (c8_navigation_bounds ⟨3, 1⟩ 0).2.2 rfl⟩

/-! ## Theorems about rendering -/

/-- A scheduler event that is not a scale change preserves the tracking
and single-task invariants. -/
theorem step_preserves_invariants (st : ViewerState) (ev : Ev)
    (he : ∀ s : ℚ, ev ≠ Ev.scaleChange s)
    (h1 : TasksTracked st) (h2 : AtMostOneTask st) :
    TasksTracked (step st ev) ∧ AtMostOneTask (step st ev) := by
  cases ev with
  | startRender p =>
      simp only [step]
      split
      · exact ⟨h1, h2⟩
      · rename_i hg
        push_neg at hg
        obtain ⟨-, hp⟩ := hg
        constructor
        · intro t ht
          rcases List.mem_cons.mp ht with rfl | ht
          · exact Finset.mem_insert_self p st.renderingPages
          · exact Finset.mem_insert_of_mem (h1 t ht)
        · intro q
          rw [List.countP_cons]
          by_cases hq : q = p
          · subst hq
            have hzero : st.tasks.countP (fun t => t.1 = q) = 0 := by
              rw [List.countP_eq_zero]
              intro t ht
              simp only [decide_eq_true_eq]
              intro hfst
              exact hp (hfst ▸ h1 t ht)
            simp [hzero]
          · have hhead : (decide ((p, st.scale).1 = q)) = false := by
              simp [Ne.symm hq]
            simp only [hhead, if_false, Nat.add_zero]
            exact h2 q
  | finishRender p s ok =>
      simp only [step]
      split
      · rename_i hmem
        obtain ⟨l₁, l₂, -, heq, herase⟩ := List.exists_erase_eq hmem
        have hsplit := h2 p
        rw [heq, List.countP_append, List.countP_cons_of_pos _ _ (by simp)] at hsplit
        have hz₁ : l₁.countP (fun t => t.1 = p) = 0 := by omega
        have hz₂ : l₂.countP (fun t => t.1 = p) = 0 := by omega
        constructor
        · intro t ht
          rw [herase] at ht
          have htasks : t ∈ st.tasks := by
            rw [heq]
            rcases List.mem_append.mp ht with h | h
            · exact List.mem_append.mpr (Or.inl h)
            · exact List.mem_append.mpr (Or.inr (List.mem_cons_of_mem _ h))
          refine Finset.mem_erase.mpr ⟨?_, h1 t htasks⟩
          rcases List.mem_append.mp ht with h | h
          · have := (List.countP_eq_zero.mp hz₁) t h
            simpa using this
          · have := (List.countP_eq_zero.mp hz₂) t h
            simpa using this
        · intro q
          exact le_trans ((List.erase_sublist _ _).countP_le _) (h2 q)
      · exact ⟨h1, h2⟩
  | scaleChange s => exact absurd rfl (he s)

/-- In a trace with no scale change, the tracking and single-task
invariants are preserved end to end. -/
theorem stepTrace_preserves_invariants (evs : List Ev) :
    ∀ st : ViewerState, NoScaleChange evs → TasksTracked st → AtMostOneTask st →
      TasksTracked (stepTrace st evs) ∧ AtMostOneTask (stepTrace st evs) := by
  induction evs with
  | nil => exact fun st _ h1 h2 => ⟨h1, h2⟩
  | cons ev evs ih =>
      intro st hno h1 h2
      have he : ∀ s : ℚ, ev ≠ Ev.scaleChange s :=
        fun s => hno ev (List.mem_cons_self ev evs) s
      have hstep := step_preserves_invariants st ev he h1 h2
      have hno2 : NoScaleChange evs := fun x hx s => hno x (List.mem_cons_of_mem ev hx) s
      exact ih (step st ev) hno2 hstep.1 hstep.2

/-- C1 counterexample: from the fresh state, page 1 starts rendering (a
task at scale 3/2 goes in flight); the scale changes to 2, and
`rerenderVisiblePages` clears `renderingPages` without cancelling the
task; the requested re-render of page 1 then starts. Two non-cancelled
render tasks for page 1 are now in flight at the same instant — the new
render did not wait for, or cancel, the prior one. -/
theorem c1_counterexample_two_tasks :
    ((stepTrace initState
        [Ev.startRender 1, Ev.scaleChange 2, Ev.startRender 1]).tasks.countP
      (fun t => t.1 = 1)) = 2 := by
  decide

/-- C1 amended: `renderPage` never cancels anything — a request for a
page already in `renderingPages` is simply skipped — and in any run with
no scale change this keeps at most one in-flight render task per page;
a scale change clears `renderingPages` without cancelling in-flight
tasks, after which a second task for the same page can start. -/
theorem c1_amended_single_render :
    (∀ (st : ViewerState) (p : ℤ), p ∈ st.renderingPages →
      step st (Ev.startRender p) = st) ∧
    (∀ (st : ViewerState) (evs : List Ev), NoScaleChange evs →
      TasksTracked st → AtMostOneTask st → AtMostOneTask (stepTrace st evs)) := by
  constructor
  · intro st p hp
    simp [step, hp]
  · intro st evs hno h1 h2
    exact (stepTrace_preserves_invariants evs st hno h1 h2).2

/-- C1 amended, witnessed: with page 1 in flight a new `startRender 1` is
skipped, and a concrete scale-change-free trace keeps at most one task
per page. -/
theorem c1_amended_single_render_witness :
    step { initState with renderingPages := {1}, tasks := [(1, 3/2)] }
        (Ev.startRender 1) =
      { initState with renderingPages := {1}, tasks := [(1, 3/2)] } ∧
    AtMostOneTask (stepTrace initState
      [Ev.startRender 1, Ev.finishRender 1 (3/2) true, Ev.startRender 1]) := by
  constructor
  · exact c1_amended_single_render.1 _ 1 (by simp)
  · refine c1_amended_single_render.2 initState _ ?_ ?_ ?_
    · intro ev hev s
      simp only [List.mem_cons, List.not_mem_nil, or_false] at hev
      rcases hev with rfl | rfl | rfl <;> simp
    · intro t ht
      simp [initState] at ht
    · intro p
      simp [initState, AtMostOneTask]

/-- C2 counterexample: page 1 starts rendering at scale 3/2; the scale
changes to 2 (no in-flight work is cancelled, and the code has no
Rendered/Stale page states to mark); the old task then settles and
paints page 1 at scale 3/2 while the current scale is 2 — a render
completes at a scale other than the current one. -/
theorem c2_counterexample_stale_render :
    (stepTrace initState
        [Ev.startRender 1, Ev.scaleChange 2,
         Ev.finishRender 1 (3/2) true]).completed = [(1, 3/2)] ∧
    (stepTrace initState
        [Ev.startRender 1, Ev.scaleChange 2,
         Ev.finishRender 1 (3/2) true]).scale = 2 ∧
    ¬ ((3 : ℚ)/2 = 2) := by
  refine ⟨?_, ?_, by norm_num⟩ <;> simp [stepTrace, step, initState]

/-- C2 amended: a scale change updates `this.scale` and
`rerenderVisiblePages` clears the `renderingPages` tracking set, leaving
everything else — in particular the in-flight render tasks and the pages
already painted — untouched: nothing is cancelled, no page is marked
stale, and a render begun before the change can still complete at the old
scale. -/
theorem c2_amended_scale_change_effect (st : ViewerState) (s : ℚ) :
    step st (Ev.scaleChange s) = { st with scale := s, renderingPages := ∅ } := rfl

/-- C6 counterexample: a concrete failing render of page 1 dispatches no
event at all — in particular none named `page-render-failed` — because
the catch block only logs to the console; the component's only dispatched
event type is `text-selected`. -/
theorem c6_counterexample_no_failure_event :
    (renderPage initState 1 (RenderOutcome.failure "corrupt stream")).2 = [] ∧
    ¬ "page-render-failed" ∈
        (renderPage initState 1 (RenderOutcome.failure "corrupt stream")).2 := by
  refine ⟨by decide, ?_⟩
  intro h
  have hnil : (renderPage initState 1 (RenderOutcome.failure "corrupt stream")).2 = [] := by
    decide
  rw [hnil] at h
  exact List.not_mem_nil _ h

/-- C6 amended: a page render failure is caught and only logged: no event
is dispatched (there is no `page-render-failed` event and no
visibly-failed placeholder state), and the failure is local — for a
loaded document and a page not already in flight the whole state is left
exactly as it was (the in-flight entry added on entry is removed again by
the `finally`), so every other page's state is unchanged and the viewer
keeps operating. -/
theorem c6_amended_render_failure_local (st : ViewerState) (p : ℤ)
    (reason : String) (hpdf : st.pdfLoaded = true)
    (hp : p ∉ st.renderingPages) :
    renderPage st p (RenderOutcome.failure reason) = (st, []) := by
  have hg : ¬(st.pdfLoaded = false ∨ p ∈ st.renderingPages) := by
    simp [hpdf, hp]
  simp [renderPage, hg, Finset.erase_eq_of_not_mem hp]

/-- C6 amended, witnessed at the fresh state and page 2. -/
theorem c6_amended_render_failure_local_witness :
    renderPage initState 2 (RenderOutcome.failure "corrupt stream") =
      (initState, []) :=
  c6_amended_render_failure_local initState 2 "corrupt stream" rfl
    (by simp [initState])

/-- C9: `renderPage` called for a page already in the in-flight set, or
with no document loaded, hits the entry guard and returns at once: the
whole state — in-flight set, painted pages and overlays, scale, current
page — is unchanged and nothing is dispatched. -/
theorem c9_renderPage_guard_frame (st : ViewerState) (p : ℤ)
    (outcome : RenderOutcome)
    (h : st.pdfLoaded = false ∨ p ∈ st.renderingPages) :
    renderPage st p outcome = (st, []) := by
  simp [renderPage, h]

/-- C9, witnessed: page 1 already in flight. -/
theorem c9_renderPage_guard_frame_witness :
    renderPage { initState with renderingPages := {1} } 1 RenderOutcome.success =
      ({ initState with renderingPages := {1} }, []) :=
  c9_renderPage_guard_frame _ 1 RenderOutcome.success (Or.inr (by simp))

/-- C10: a `renderPage` run that passes the entry guard removes its page
from the in-flight set when it finishes, whether the render succeeded or
threw — the `finally` runs on both paths — so afterwards the page is not
in `renderingPages` and a later render request for it is not stopped by
the guard. -/
theorem c10_renderPage_releases_inflight (st : ViewerState) (p : ℤ)
    (outcome : RenderOutcome) (hpdf : st.pdfLoaded = true)
    (hp : p ∉ st.renderingPages) :
    p ∉ (renderPage st p outcome).1.renderingPages := by
  have hg : ¬(st.pdfLoaded = false ∨ p ∈ st.renderingPages) := by
    simp [hpdf, hp]
  cases outcome <;> simp [renderPage, hg]

/-- C10, witnessed on the success path and on the error path. -/
theorem c10_renderPage_releases_inflight_witness :
    1 ∉ (renderPage initState 1 RenderOutcome.success).1.renderingPages ∧
    1 ∉ (renderPage initState 1
          (RenderOutcome.failure "boom")).1.renderingPages :=
  ⟨c10_renderPage_releases_inflight initState 1 RenderOutcome.success rfl
      (by simp [initState]),
   c10_renderPage_releases_inflight initState 1 (RenderOutcome.failure "boom") rfl
      (by simp [initState])⟩

end PdfViewer
